import Mathlib

/-!
Verification of the ride-matching core of the repository: the Redis
ride-hash service (Ride-create-assign-1.md), the single-file ride flow
(Ride-create-assign-3.md), the Mongo+Redis ride service (services/rideService.js
with lib/lua.js), the H3 driver geo service (driver_geo_service.ts) and the
S2 matching service (cab-service-ultra-scalable.md).

Modelling conventions: Redis hashes become Lean structures, Redis string
values stay String, timestamps are Nat milliseconds, key TTLs that no claim
depends on are recorded as comments, and external library calls (h3-js, S2,
great-circle distance as computed by Redis GEOSEARCH) are parameters of the
definitions that call them.
-/

namespace RideHashSvc

/-- Ride hash ride:{rideId} from Ride-create-assign-1.md: fields status,
assigned (empty string when none), assignedAt (none models the empty string)
and expireAt (none models a missing or empty field). The meta and category
fields carry no transition logic and are omitted. -/
structure RideHash where
  status : String
  assigned : String
  assignedAt : Option Nat
  expireAt : Option Nat
deriving DecidableEq, Repr

/-- Store for one ride key plus the per-driver lock keys
driver:{driverId}:lock (value is the ride key string). A ride of none models
an absent (never created or TTL-deleted) ride key. -/
structure Store where
  ride : Option RideHash
  locks : List (String × String)
deriving DecidableEq, Repr

/-- Value of driver:{driverId}:lock. -/
def getLock (s : Store) (driverId : String) : Option String :=
  (s.locks.find? (fun p => p.1 = driverId)).map Prod.snd

/-- Redis SET on a driver lock key: overwrites any previous value.
The EX 180 TTL is not tracked; no claim depends on lock decay here. -/
def setLock (s : Store) (driverId v : String) : Store :=
  { s with locks := (driverId, v) :: s.locks.filter (fun p => ¬ p.1 = driverId) }

/-- Redis DEL on a driver lock key. -/
def delLock (s : Store) (driverId : String) : Store :=
  { s with locks := s.locks.filter (fun p => ¬ p.1 = driverId) }

/-- Step 1 create: hmset status pending, assigned empty, assignedAt empty,
expireAt now+60000 (the ride key also gets a 60s TTL, not tracked). -/
def createRideHash (now : Nat) : RideHash :=
  { status := "pending", assigned := "", assignedAt := none,
    expireAt := some (now + 60000) }

/-- Lua acceptScript: reject when status is nil, assigned or cancelled;
otherwise hmset status assigned, assigned driverId, assignedAt now, then set
driver:{driverId}:lock to the ride key (EX 180) and pexpire the ride key
(300000); TTLs not tracked. Returns the script result and the new store. -/
def acceptScript (rideId driverId : String) (now : Nat) (s : Store) :
    Int × Store :=
  match s.ride with
  | none => (0, s)
  | some r =>
    if r.status = "assigned" ∨ r.status = "cancelled" then (0, s)
    else
      let r2 : RideHash :=
        { r with status := "assigned", assigned := driverId,
                 assignedAt := some now }
      (1, setLock { s with ride := some r2 } driverId ("ride:" ++ rideId))

/-- Lua passengerCancelScript: reject when status is nil, assigned or
cancelled; otherwise hset status cancelled. -/
def passengerCancelScript (s : Store) : Int × Store :=
  match s.ride with
  | none => (0, s)
  | some r =>
    if r.status = "assigned" ∨ r.status = "cancelled" then (0, s)
    else (1, { s with ride := some { r with status := "cancelled" } })

/-- Lua driverCancelScript: only when status is assigned and the assigned
driver is the caller: del the driver lock, hmset status pending, assigned
empty, assignedAt empty. -/
def driverCancelScript (driverId : String) (s : Store) : Int × Store :=
  match s.ride with
  | none => (0, s)
  | some r =>
    if r.status = "assigned" ∧ r.assigned = driverId then
      (1, delLock
            { s with ride := some { r with status := "pending",
                                           assigned := "",
                                           assignedAt := none } }
            driverId)
    else (0, s)

/-- One pass of the expiry worker over this ride key: when the expireAt
field is present, at most now, and the status is pending, hset status
expired; otherwise leave the key alone. -/
def expireRides (now : Nat) (s : Store) : Store :=
  match s.ride with
  | none => s
  | some r =>
    match r.expireAt with
    | none => s
    | some e =>
      if e ≤ now ∧ r.status = "pending" then
        { s with ride := some { r with status := "expired" } }
      else s

/-- Apply a sequence of accept attempts (driverId, timestamp) for the same
rideId, collecting each attempt's script result and the final store. -/
def runAccepts (rideId : String) : Store → List (String × Nat) →
    List Int × Store
  | s, [] => ([], s)
  | s, (d, t) :: rest =>
    let p := acceptScript rideId d t s
    let q := runAccepts rideId p.2 rest
    (p.1 :: q.1, q.2)

/-- Once the ride hash shows status assigned, every accept attempt returns 0
and leaves the store untouched. -/
theorem runAccepts_assigned (rideId : String) (s : Store) (r : RideHash)
    (hr : s.ride = some r) (hst : r.status = "assigned") :
    ∀ l : List (String × Nat),
      runAccepts rideId s l = (List.replicate l.length 0, s) := by
  intro l
  induction l with
  | nil => simp [runAccepts]
  | cons p rest ih =>
    obtain ⟨d, t⟩ := p
    have hacc : acceptScript rideId d t s = (0, s) := by
      simp [acceptScript, hr, hst]
    simp [runAccepts, hacc, ih, List.replicate_succ]

/-- C1: from a ride hash in pending status, a sequence of accept attempts
(possibly by different drivers) has exactly one success, the first attempt;
it binds that driver to the ride, and every later attempt returns 0 and
leaves the ride status, assigned driver and assignedAt (indeed the whole
store) unchanged. -/
theorem accept_first_wins (rideId : String) (s : Store) (r : RideHash)
    (hr : s.ride = some r) (hst : r.status = "pending")
    (d : String) (t : Nat) (rest : List (String × Nat)) :
    runAccepts rideId s ((d, t) :: rest) =
      (1 :: List.replicate rest.length 0,
       setLock { s with ride := some { r with status := "assigned",
                                              assigned := d,
                                              assignedAt := some t } }
         d ("ride:" ++ rideId)) := by
  have hacc : acceptScript rideId d t s =
      (1, setLock { s with ride := some { r with status := "assigned",
                                                 assigned := d,
                                                 assignedAt := some t } }
            d ("ride:" ++ rideId)) := by
    simp [acceptScript, hr, hst]
  have hafter := runAccepts_assigned rideId
    (setLock { s with ride := some { r with status := "assigned",
                                            assigned := d,
                                            assignedAt := some t } }
      d ("ride:" ++ rideId))
    { r with status := "assigned", assigned := d, assignedAt := some t }
    (by simp [setLock]) rfl rest
  simp [runAccepts, hacc, hafter]

/-- Witness for accept_first_wins: a freshly created pending ride, three
accept attempts; the first succeeds, the other two fail and change nothing. -/
theorem accept_first_wins_witness :
    (Store.mk (some (createRideHash 0)) []).ride = some (createRideHash 0) ∧
    (createRideHash 0).status = "pending" ∧
    runAccepts "r1" (Store.mk (some (createRideHash 0)) [])
        [("d1", 5), ("d2", 6), ("d3", 7)] =
      (1 :: List.replicate 2 0,
       setLock { Store.mk (some (createRideHash 0)) [] with
                   ride := some { createRideHash 0 with
                                    status := "assigned",
                                    assigned := "d1",
                                    assignedAt := some 5 } }
         "d1" ("ride:" ++ "r1")) :=
  ⟨rfl, rfl,
   accept_first_wins "r1" (Store.mk (some (createRideHash 0)) [])
     (createRideHash 0) rfl rfl "d1" 5 [("d2", 6), ("d3", 7)]⟩

/-- C3: the expiry worker does move a pending ride past expireAt to
expired, but the acceptScript guard only rejects the statuses assigned and
cancelled, so a delayed accept on the expired ride succeeds and moves it to
assigned — contradicting both the spec and the flow description in the
source (accept only when still pending). -/
theorem expired_ride_late_accept_succeeds :
    expireRides 60000 (Store.mk (some (createRideHash 0)) []) =
      Store.mk (some { createRideHash 0 with status := "expired" }) [] ∧
    (acceptScript "r1" "d1" 70000
        (expireRides 60000 (Store.mk (some (createRideHash 0)) []))).1 = 1 ∧
    (acceptScript "r1" "d1" 70000
        (expireRides 60000 (Store.mk (some (createRideHash 0)) []))).2.ride =
      some { status := "assigned", assigned := "d1",
             assignedAt := some 70000, expireAt := some 60000 } :=
  ⟨rfl, rfl, rfl⟩

/-- C4: a driver who already holds an active lock for ride r1 accepts the
pending ride r2; the acceptScript never inspects the driver lock, so the
attempt succeeds, binds the ride, and overwrites the existing lock with the
new ride key — the exact opposite of a clean rejection with no side
effects. -/
theorem accept_with_foreign_lock_succeeds :
    acceptScript "r2" "d1" 7
        (Store.mk (some (createRideHash 0)) [("d1", "ride:r1")]) =
      (1, Store.mk (some { status := "assigned", assigned := "d1",
                           assignedAt := some 7, expireAt := some 60000 })
            [("d1", "ride:r2")]) := by
  decide

/-- Guarded transition operations of the ride-hash service, as invoked by
the Express routes: accept, passenger cancel, driver cancel, and one expiry
worker pass. -/
inductive Op where
  | accept (rideId driverId : String) (now : Nat)
  | pcancel
  | dcancel (driverId : String)
  | sweep (now : Nat)

/-- State reached by an operation (routes discard the script result). -/
def applyOp : Op → Store → Store
  | .accept rideId d t, s => (acceptScript rideId d t s).2
  | .pcancel, s => (passengerCancelScript s).2
  | .dcancel d, s => (driverCancelScript d s).2
  | .sweep t, s => expireRides t s

/-- Well-formed call: the accepting driver id is a non-empty string (an
empty assigned field is the hash encoding of no driver). -/
def opOk : Op → Prop
  | .accept _ d _ => d ≠ ""
  | _ => True

/-- Invariant of the ride hash: the assigned field is non-empty exactly
when the status is assigned. -/
def rideInv (s : Store) : Bool :=
  match s.ride with
  | none => true
  | some r => decide (r.assigned ≠ "" ↔ r.status = "assigned")

/-- Unfolding lemma for rideInv at a present ride hash. -/
theorem rideInv_spec {s : Store} {r : RideHash} (hs : s.ride = some r)
    (h : rideInv s = true) : r.assigned ≠ "" ↔ r.status = "assigned" := by
  unfold rideInv at h
  rw [hs] at h
  exact of_decide_eq_true h

/-- C5 (amended): ride creation establishes, and every guarded operation of
the ride-hash service (accept with a non-empty driver id, passenger cancel,
driver cancel, expiry sweep) preserves, the invariant that the assigned
driver field is non-empty iff the status is assigned; in this variant a
cancelled or expired ride never retains a non-empty assigned driver. -/
theorem assigned_iff_status_invariant :
    (∀ now : Nat, rideInv (Store.mk (some (createRideHash now)) []) = true) ∧
    (∀ (op : Op) (s : Store), opOk op → rideInv s = true →
      rideInv (applyOp op s) = true) := by
  constructor
  · intro now
    simp [rideInv, createRideHash]
  · intro op s hok hinv
    cases op with
    | accept rideId d t =>
      rcases hs : s.ride with _ | r
      · simpa [applyOp, acceptScript, hs] using hinv
      · by_cases hg : r.status = "assigned" ∨ r.status = "cancelled"
        · simpa [applyOp, acceptScript, hs, hg] using hinv
        · simp only [applyOp, acceptScript, hs]
          rw [if_neg hg]
          simp only [rideInv, setLock]
          simp [opOk] at hok
          simp [hok]
    | pcancel =>
      rcases hs : s.ride with _ | r
      · simpa [applyOp, passengerCancelScript, hs] using hinv
      · by_cases hg : r.status = "assigned" ∨ r.status = "cancelled"
        · simpa [applyOp, passengerCancelScript, hs, hg] using hinv
        · have hempty : r.assigned = "" := by
            by_contra hne
            exact (not_or.mp hg).1 ((rideInv_spec hs hinv).mp hne)
          simp only [applyOp, passengerCancelScript, hs]
          rw [if_neg hg]
          simp [rideInv, hempty]
    | dcancel d =>
      rcases hs : s.ride with _ | r
      · simpa [applyOp, driverCancelScript, hs] using hinv
      · by_cases hg : r.status = "assigned" ∧ r.assigned = d
        · simp only [applyOp, driverCancelScript, hs]
          rw [if_pos hg]
          simp [rideInv, delLock]
        · simp only [applyOp, driverCancelScript, hs]
          rw [if_neg hg]
          simpa [rideInv, hs] using hinv
    | sweep t =>
      rcases hs : s.ride with _ | r
      · simpa [applyOp, expireRides, hs] using hinv
      · rcases he : r.expireAt with _ | e
        · simpa [applyOp, expireRides, hs, he] using hinv
        · by_cases hg : e ≤ t ∧ r.status = "pending"
          · have hempty : r.assigned = "" := by
              by_contra hne
              have hst := (rideInv_spec hs hinv).mp hne
              rw [hg.2] at hst
              exact absurd hst (by decide)
            simp only [applyOp, expireRides, hs, he]
            rw [if_pos hg]
            simp [rideInv, hempty]
          · simp only [applyOp, expireRides, hs, he]
            rw [if_neg hg]
            simpa [rideInv, hs] using hinv

/-- Witness for assigned_iff_status_invariant: creation at time 0 satisfies
the invariant, and an accept by the non-empty driver d1 preserves it. -/
theorem assigned_iff_status_invariant_witness :
    rideInv (Store.mk (some (createRideHash 0)) []) = true ∧
    rideInv (applyOp (Op.accept "r1" "d1" 3)
      (Store.mk (some (createRideHash 0)) [])) = true :=
  ⟨assigned_iff_status_invariant.1 0,
   assigned_iff_status_invariant.2 (Op.accept "r1" "d1" 3)
     (Store.mk (some (createRideHash 0)) [])
     (by decide : ("d1" : String) ≠ "")
     (assigned_iff_status_invariant.1 0)⟩

end RideHashSvc

namespace RideFlow

/-- Ride record from the single-file TS flow (Ride-create-assign-3): the
status codes are the RIDE_STATUS constants (rq, as, st, cp, cl); fields
with no bearing on cancellation (pickup, drop, category, timestamps) are
omitted. -/
structure Ride where
  status : String
  driverId : Option String
  cancelledBy : Option String
deriving DecidableEq, Repr

/-- RIDE_STATUS.ASSIGNED constant. -/
def RIDE_STATUS_ASSIGNED : String := "as"

/-- RIDE_STATUS.CANCELLED constant. -/
def RIDE_STATUS_CANCELLED : String := "cl"

/-- cancelRide (STEP 4): hset status to CANCELLED and record cancelledBy,
unconditionally; the driverId field is left untouched. -/
def cancelRide (cancelledBy : String) (r : Ride) : Ride :=
  { r with status := RIDE_STATUS_CANCELLED, cancelledBy := some cancelledBy }

/-- C5 counterexample: cancelling a ride that is ASSIGNED to driver d1
yields a CANCELLED ride that still carries driverId d1 — a cancelled ride
retains its non-empty assigned driver, so the claimed invariant fails. -/
theorem cancelRide_keeps_driver :
    (cancelRide "passenger"
        (Ride.mk RIDE_STATUS_ASSIGNED (some "d1") none)).status =
      RIDE_STATUS_CANCELLED ∧
    (cancelRide "passenger"
        (Ride.mk RIDE_STATUS_ASSIGNED (some "d1") none)).driverId =
      some "d1" :=
  ⟨rfl, rfl⟩

end RideFlow

namespace RideService

/-- Mongo Ride document from models/Ride.js, restricted to the fields the
create and accept flows touch. Status values are the schema enum strings. -/
structure MRide where
  id : String
  riderId : String
  status : String
  driverId : Option String
  acceptedAt : Option Nat
  idemKey : String
deriving DecidableEq, Repr

/-- State touched by createRide for one idempotency key: the Redis value at
idem:ride:{idemKey} and the Mongo rides collection. -/
structure CState where
  idem : Option String
  rides : List MRide
deriving DecidableEq, Repr

/-- Lua IDEM_SCRIPT: GET the key; if present return the stored value,
otherwise SET it NX (EX 900, TTL not tracked) to the fresh rideId and
return that. Result is the returned value and the new key value. -/
def IDEM_SCRIPT (rideId : String) (cur : Option String) :
    String × Option String :=
  match cur with
  | some v => (v, some v)
  | none => (rideId, some rideId)

/-- Ride.create document as built by createRide: status requested, no
driver, the pre-generated ObjectId as _id. -/
def mkRide (rideId riderId idemKey : String) : MRide :=
  { id := rideId, riderId := riderId, status := "requested",
    driverId := none, acceptedAt := none, idemKey := idemKey }

/-- One in-flight createRide call: its pre-generated rideId, the rider, a
program counter (0 = before the idem script, 1 = between the idem script
and the Mongo access, 2 = done), the value the idem script returned, and
the ride value the call returns (none models the null duplicate path). -/
structure CreateCall where
  rideId : String
  riderId : String
  pc : Nat
  reserved : String
  output : Option MRide
deriving DecidableEq, Repr

/-- One atomic step of createRide. Step at pc 0 runs the idem script
(atomic in Redis). Step at pc 1 is the Mongo access: when the reserved
value differs from this call's rideId the call is a duplicate and returns
Ride.findById of the reserved id (null when the first call has not
inserted yet); otherwise the call inserts the new document and returns
it. A finished call does not move. -/
def createStep (idemKey : String) (c : CreateCall) (s : CState) :
    CreateCall × CState :=
  if c.pc = 0 then
    let p := IDEM_SCRIPT c.rideId s.idem
    ({ c with pc := 1, reserved := p.1 }, { s with idem := p.2 })
  else if c.pc = 1 then
    if c.reserved ≠ c.rideId then
      ({ c with pc := 2,
                output := s.rides.find? (fun r => r.id = c.reserved) }, s)
    else
      let r := mkRide c.rideId c.riderId idemKey
      ({ c with pc := 2, output := some r },
       { s with rides := s.rides ++ [r] })
  else (c, s)

/-- Run two racing createRide calls that share idemKey under a schedule:
true schedules a step of the first call, false a step of the second. -/
def runSched (idemKey : String) :
    List Bool → CreateCall → CreateCall → CState →
    CreateCall × CreateCall × CState
  | [], c1, c2, s => (c1, c2, s)
  | true :: rest, c1, c2, s =>
    let p := createStep idemKey c1 s
    runSched idemKey rest p.1 c2 p.2
  | false :: rest, c1, c2, s =>
    let p := createStep idemKey c2 s
    runSched idemKey rest c1 p.1 p.2

/-- Fresh call at pc 0. -/
def initCall (rideId riderId : String) : CreateCall :=
  { rideId := rideId, riderId := riderId, pc := 0, reserved := "",
    output := none }

/-- C2 counterexample: two createRide calls share the key k and race so
that the duplicate call's Mongo lookup runs before the winning call's
insert (schedule: idem-1, idem-2, lookup-2, insert-1). Exactly one ride is
created, but the second call returns null instead of the first call's
rideId — the two calls do not both return the same rideId. -/
theorem createRide_race_returns_null :
    (runSched "k" [true, false, false, true]
        (initCall "r1" "p1") (initCall "r2" "p2")
        (CState.mk none [])).2.1.output = none ∧
    (runSched "k" [true, false, false, true]
        (initCall "r1" "p1") (initCall "r2" "p2")
        (CState.mk none [])).1.output = some (mkRide "r1" "p1" "k") ∧
    (runSched "k" [true, false, false, true]
        (initCall "r1" "p1") (initCall "r2" "p2")
        (CState.mk none [])).2.2.rides = [mkRide "r1" "p1" "k"] := by
  decide

/-- C2 (amended): for any two racing createRide calls that share an
idempotency key (fresh pre-generated rideIds r1 and r2, any interleaving of
their idem-script and Mongo steps), exactly one Ride document is ever
created, and every call either returns that document or returns null (the
duplicate path racing the insert); the two calls never return two different
rides. -/
theorem createRide_one_record (k r1 r2 p1 p2 : String) (h : r1 ≠ r2)
    (sched : List Bool) (hlen : sched.length = 4)
    (hcount : sched.count true = 2) :
    ∃ m : MRide,
      (runSched k sched (initCall r1 p1) (initCall r2 p2)
          (CState.mk none [])).2.2.rides = [m] ∧
      ((runSched k sched (initCall r1 p1) (initCall r2 p2)
          (CState.mk none [])).1.output = some m ∨
       (runSched k sched (initCall r1 p1) (initCall r2 p2)
          (CState.mk none [])).1.output = none) ∧
      ((runSched k sched (initCall r1 p1) (initCall r2 p2)
          (CState.mk none [])).2.1.output = some m ∨
       (runSched k sched (initCall r1 p1) (initCall r2 p2)
          (CState.mk none [])).2.1.output = none) := by
  rcases sched with _ | ⟨a, _ | ⟨b, _ | ⟨c, _ | ⟨d, rest⟩⟩⟩⟩ <;>
    simp only [List.length] at hlen <;> try omega
  have hrest : rest = [] := List.eq_nil_of_length_eq_zero (by omega)
  subst hrest
  rcases a with _ | _ <;> rcases b with _ | _ <;>
    rcases c with _ | _ <;> rcases d with _ | _ <;>
  first
    | exact absurd hcount (by decide)
    | ((refine ⟨mkRide r1 p1 k, ?_, ?_, ?_⟩ <;>
        simp [runSched, createStep, IDEM_SCRIPT, initCall, mkRide, h,
              Ne.symm h]) <;> done)
    | ((refine ⟨mkRide r2 p2 k, ?_, ?_, ?_⟩ <;>
        simp [runSched, createStep, IDEM_SCRIPT, initCall, mkRide, h,
              Ne.symm h]) <;> done)

/-- Witness for createRide_one_record: the sequential schedule where call 1
finishes before call 2 starts. -/
theorem createRide_one_record_witness :
    ("r1" : String) ≠ "r2" ∧
    ([true, true, false, false] : List Bool).length = 4 ∧
    ([true, true, false, false] : List Bool).count true = 2 ∧
    ∃ m : MRide,
      (runSched "k" [true, true, false, false]
          (initCall "r1" "p1") (initCall "r2" "p2")
          (CState.mk none [])).2.2.rides = [m] ∧
      ((runSched "k" [true, true, false, false]
          (initCall "r1" "p1") (initCall "r2" "p2")
          (CState.mk none [])).1.output = some m ∨
       (runSched "k" [true, true, false, false]
          (initCall "r1" "p1") (initCall "r2" "p2")
          (CState.mk none [])).1.output = none) ∧
      ((runSched "k" [true, true, false, false]
          (initCall "r1" "p1") (initCall "r2" "p2")
          (CState.mk none [])).2.1.output = some m ∨
       (runSched "k" [true, true, false, false]
          (initCall "r1" "p1") (initCall "r2" "p2")
          (CState.mk none [])).2.1.output = none) :=
  ⟨by decide, rfl, rfl,
   createRide_one_record "k" "r1" "r2" "p1" "p2" (by decide)
     [true, true, false, false] rfl rfl⟩

/-- Lua LOCK_SCRIPT for lock:ride:{rideId}: SETNX the driverId then
PEXPIRE with the given TTL. A lock entry is (value, expiry time in ms); an
entry whose expiry is at most now has been dropped by Redis, so SETNX
succeeds. Returns 1 with the new entry on success, 0 leaving the live
entry otherwise. -/
def LOCK_SCRIPT (driverId : String) (ttlMs now : Nat)
    (lock : Option (String × Nat)) : Int × Option (String × Nat) :=
  match lock with
  | some (v, e) =>
    if now < e then (0, some (v, e)) else (1, some (driverId, now + ttlMs))
  | none => (1, some (driverId, now + ttlMs))

/-- State touched by acceptRide for one rideId: the Redis lock key
lock:ride:{rideId} and the Mongo document with that _id (none when no such
ride exists). -/
structure AState where
  lock : Option (String × Nat)
  ride : Option MRide
deriving DecidableEq, Repr

/-- acceptRide: run LOCK_SCRIPT with a 15000 ms TTL; on lock failure throw.
Otherwise findOneAndUpdate the ride conditioned on status requested; when
the filter matches, set driverId, status accepted and acceptedAt and return
the updated document; when it matches nothing, throw — without deleting
the lock that was just acquired. -/
def acceptRide (driverId : String) (now : Nat) (s : AState) :
    Except String MRide × AState :=
  let p := LOCK_SCRIPT driverId 15000 now s.lock
  if p.1 ≠ 1 then
    (Except.error "Ride already locked by another driver", s)
  else
    match s.ride with
    | some r =>
      if r.status = "requested" then
        let r2 := { r with driverId := some driverId, status := "accepted",
                           acceptedAt := some now }
        (Except.ok r2, AState.mk p.2 (some r2))
      else
        (Except.error "Ride already accepted or not found",
         AState.mk p.2 (some r))
    | none =>
      (Except.error "Ride already accepted or not found", AState.mk p.2 none)

/-- Lock key absent or already past its expiry at the given instant. -/
def lockFree (lock : Option (String × Nat)) (now : Nat) : Prop :=
  ∀ v e, lock = some (v, e) → e ≤ now

/-- Ride document absent or not in requested status, so the conditional
update matches nothing. -/
def rideNotRequested (ride : Option MRide) : Prop :=
  ∀ r, ride = some r → r.status ≠ "requested"

/-- C10: when an acceptRide call at time t0 wins the lock but the
conditional update matches no document, it throws the not-found error while
the freshly acquired lock stays behind with expiry t0+15000; for the rest
of that TTL every acceptRide call for the ride — any driver, any ride
state, including one that meanwhile became acceptable — fails at the
lock-acquisition step and changes nothing. -/
theorem acceptRide_failed_update_leaks_lock (d0 : String) (t0 : Nat)
    (s : AState) (hfree : lockFree s.lock t0)
    (hnr : rideNotRequested s.ride) :
    (acceptRide d0 t0 s).1 =
      Except.error "Ride already accepted or not found" ∧
    (acceptRide d0 t0 s).2.lock = some (d0, t0 + 15000) ∧
    ∀ (d : String) (t : Nat), t < t0 + 15000 → ∀ r : Option MRide,
      acceptRide d t (AState.mk (some (d0, t0 + 15000)) r) =
        (Except.error "Ride already locked by another driver",
         AState.mk (some (d0, t0 + 15000)) r) := by
  have hlock : LOCK_SCRIPT d0 15000 t0 s.lock =
      (1, some (d0, t0 + 15000)) := by
    rcases hl : s.lock with _ | ⟨v, e⟩
    · simp [LOCK_SCRIPT]
    · have he : e ≤ t0 := hfree v e hl
      simp [LOCK_SCRIPT, Nat.not_lt.mpr he]
  refine ⟨?_, ?_, ?_⟩
  · rcases hr : s.ride with _ | r
    · simp [acceptRide, hlock, hr]
    · have hst := hnr r hr
      simp [acceptRide, hlock, hr, hst]
  · rcases hr : s.ride with _ | r
    · simp [acceptRide, hlock, hr]
    · have hst := hnr r hr
      simp [acceptRide, hlock, hr, hst]
  · intro d t ht r
    simp [acceptRide, LOCK_SCRIPT, ht]

/-- Witness for acceptRide_failed_update_leaks_lock: no lock, a ride
already in accepted status; the failed call leaves a lock that blocks a
later accept at time 10, even against a ride reset to requested status. -/
theorem acceptRide_failed_update_leaks_lock_witness :
    lockFree none 0 ∧
    rideNotRequested (some (MRide.mk "r1" "p1" "accepted" none none "k")) ∧
    ((acceptRide "d0" 0
        (AState.mk none
          (some (MRide.mk "r1" "p1" "accepted" none none "k")))).1 =
      Except.error "Ride already accepted or not found" ∧
    (acceptRide "d0" 0
        (AState.mk none
          (some (MRide.mk "r1" "p1" "accepted" none none "k")))).2.lock =
      some ("d0", 0 + 15000) ∧
    ∀ (d : String) (t : Nat), t < 0 + 15000 → ∀ r : Option MRide,
      acceptRide d t (AState.mk (some ("d0", 0 + 15000)) r) =
        (Except.error "Ride already locked by another driver",
         AState.mk (some ("d0", 0 + 15000)) r)) :=
  by
  refine ⟨?_, ?_, ?_⟩
  · intro v e h
    cases h
  · intro r h
    cases h
    decide
  · exact acceptRide_failed_update_leaks_lock "d0" 0
      (AState.mk none (some (MRide.mk "r1" "p1" "accepted" none none "k")))
      (by intro v e h; cases h)
      (by intro r h; cases h; decide)

end RideService

namespace DriverGeo

/-- Coordinates as stored by GEOADD. Numeric values are modelled as exact
rationals; the only operations the service performs on them are the
comparisons and the distance computation, which is a parameter. -/
structure Loc where
  lat : ℚ
  lon : ℚ
deriving DecidableEq, Repr

/-- Redis SET/GEOADD-style update of an association list keyed by strings:
overwrite the entry for the key, keep the others. -/
def setAssoc {α : Type} (m : List (String × α)) (k : String) (v : α) :
    List (String × α) :=
  (k, v) :: m.filter (fun p => ¬ p.1 = k)

/-- Lookup of an association list keyed by strings. -/
def getAssoc {α : Type} (m : List (String × α)) (k : String) : Option α :=
  (m.find? (fun p => p.1 = k)).map Prod.snd

/-- Redis state of driver_geo_service.ts (first variant): the per-cell GEO
keys (member driver id with its stored coordinates), the driver:cell:*
pointer keys, and the driver:lastSeen:* keys, each recorded as the instant
its PX TTL expires (Redis drops the key at that instant; the stored string
value is never read by this service). -/
structure GeoState where
  geo : List (String × List (String × Loc))
  driverCell : List (String × String)
  lastSeen : List (String × Nat)
deriving DecidableEq, Repr

/-- Helper geoKeyForCell with the default H3_RES of 8. -/
def geoKeyForCell (cell : String) : String := "geo:drivers:h3:8:" ++ cell

/-- updateLocation: compute the H3 cell of the coordinates (h3-js is a
parameter), then in one pipeline GEOADD the driver into that cell's geo
key, SET the driver:cell pointer, and SET driver:lastSeen with PX
LAST_SEEN_TTL_MS. Returns the new state and the (driverId, cell) result.
Nothing removes the driver from a previously indexed cell. -/
def updateLocation (latLngToCell : ℚ → ℚ → String) (lastSeenTtlMs : Nat)
    (driverId : String) (lat lon : ℚ) (now : Nat) (s : GeoState) :
    GeoState × String × String :=
  let cell := latLngToCell lat lon
  let geoKey := geoKeyForCell cell
  let members := (getAssoc s.geo geoKey).getD []
  (GeoState.mk (setAssoc s.geo geoKey (setAssoc members driverId (Loc.mk lat lon)))
     (setAssoc s.driverCell driverId cell)
     (setAssoc s.lastSeen driverId (now + lastSeenTtlMs)),
   driverId, cell)

/-- One element of a GEOSEARCH ... WITHDIST WITHCOORD reply, after the
parse in searchNearby. -/
structure SEntry where
  driverId : String
  distance : ℚ
  lat : ℚ
  lon : ℚ
deriving DecidableEq, Repr

instance : IsTotal SEntry (fun a b => a.distance ≤ b.distance) :=
  ⟨fun a b => le_total a.distance b.distance⟩

instance : IsTrans SEntry (fun a b => a.distance ≤ b.distance) :=
  ⟨fun _ _ _ hab hbc => le_trans hab hbc⟩

/-- Redis GEOSEARCH FROMLONLAT BYRADIUS ... ASC COUNT n over one cell key:
members within the radius of the query point, with their distance, sorted
ascending by distance, at most n of them. The great-circle distance
computed by Redis is the parameter dist. -/
def geoSearchCell (dist : Loc → Loc → ℚ) (q : Loc) (radius : ℚ)
    (count : Nat) (members : List (String × Loc)) : List SEntry :=
  (List.insertionSort (fun a b => a.distance ≤ b.distance)
    ((members.map (fun p => SEntry.mk p.1 (dist q p.2) p.2.lat p.2.lon)).filter
      (fun e => decide (e.distance ≤ radius)))).take count

/-- Dedup-by-seen-set filter from searchNearby: keep the first entry for
each key, dropping later entries whose key was seen before. -/
def dedupByKey {α : Type} (key : α → String) :
    List α → List String → List α
  | [], _ => []
  | x :: rest, seen =>
    if key x ∈ seen then dedupByKey key rest seen
    else x :: dedupByKey key rest (key x :: seen)

/-- searchNearby: compute the center cell and the gridDisk of rings =
ceil(radius / edgeLength) around it (h3-js calls are parameters), GEOSEARCH
every cell in the disk, flatten the per-cell replies, sort ascending by
distance, drop duplicate driver ids keeping the nearest, and return the
first maxResults entries. -/
def searchNearby (latLngToCell : ℚ → ℚ → String)
    (gridDisk : String → Nat → List String) (edgeLengthMeters : ℚ)
    (dist : Loc → Loc → ℚ) (lat lon radiusMeters : ℚ) (maxResults : Nat)
    (s : GeoState) : List SEntry :=
  let centerCell := latLngToCell lat lon
  let rings := (⌈radiusMeters / edgeLengthMeters⌉).toNat
  let cells := gridDisk centerCell rings
  let results := cells.flatMap (fun c =>
    geoSearchCell dist (Loc.mk lat lon) radiusMeters maxResults
      ((getAssoc s.geo (geoKeyForCell c)).getD []))
  let merged := List.insertionSort (fun a b => a.distance ≤ b.distance) results
  (dedupByKey SEntry.driverId merged []).take maxResults

/-- The dedup filter returns a sublist of its input. -/
theorem dedupByKey_sublist {α : Type} (key : α → String) :
    ∀ (l : List α) (seen : List String),
      List.Sublist (dedupByKey key l seen) l := by
  intro l
  induction l with
  | nil => intro seen; simp [dedupByKey]
  | cons x rest ih =>
    intro seen
    by_cases hx : key x ∈ seen
    · simp only [dedupByKey, if_pos hx]
      exact (ih seen).cons x
    · simp only [dedupByKey, if_neg hx]
      exact (ih (key x :: seen)).cons₂ x

/-- Keys of the dedup filter output are distinct and avoid the seen set. -/
theorem dedupByKey_nodup {α : Type} (key : α → String) :
    ∀ (l : List α) (seen : List String),
      ((dedupByKey key l seen).map key).Nodup ∧
      ∀ k ∈ (dedupByKey key l seen).map key, k ∉ seen := by
  intro l
  induction l with
  | nil => intro seen; simp [dedupByKey]
  | cons x rest ih =>
    intro seen
    by_cases hx : key x ∈ seen
    · simpa only [dedupByKey, if_pos hx] using ih seen
    · obtain ⟨hnd, havoid⟩ := ih (key x :: seen)
      refine ⟨?_, ?_⟩
      · simp only [dedupByKey, if_neg hx, List.map_cons, List.nodup_cons]
        exact ⟨fun hmem => (havoid (key x) hmem) (List.mem_cons_self _ _), hnd⟩
      · intro k hk
        simp only [dedupByKey, if_neg hx, List.map_cons,
          List.mem_cons] at hk
        rcases hk with rfl | hk
        · exact hx
        · exact fun hks => havoid k hk (List.mem_cons_of_mem _ hks)

/-- Cell keys with distinct cells are distinct (the fixed prefix cancels). -/
theorem geoKeyForCell_inj {c1 c2 : String}
    (h : geoKeyForCell c1 = geoKeyForCell c2) : c1 = c2 := by
  have hd := congrArg String.data h
  simp [geoKeyForCell, String.data_append] at hd
  exact String.ext hd

/-- C6 counterexample: driver d1 reports at cell A, then at cell B; a
GEOSEARCH over cell A's geo key (exactly what searchNearby issues for each
disk cell) still returns d1, because updateLocation never removes the old
cell's member — the claimed atomic removal does not happen. The query over
the new cell B returns d1 as well. -/
theorem update_leaves_old_cell_member :
    ((geoSearchCell (fun _ _ => 0) (Loc.mk 0 0) 10 50
        ((getAssoc ((updateLocation (fun la _ => if la = 0 then "A" else "B")
            30000 "d1" 2 0 200
            ((updateLocation (fun la _ => if la = 0 then "A" else "B")
              30000 "d1" 0 0 100 (GeoState.mk [] [] [])).1)).1).geo
          (geoKeyForCell "A")).getD [])).map SEntry.driverId) = ["d1"] ∧
    ((geoSearchCell (fun _ _ => 0) (Loc.mk 0 0) 10 50
        ((getAssoc ((updateLocation (fun la _ => if la = 0 then "A" else "B")
            30000 "d1" 2 0 200
            ((updateLocation (fun la _ => if la = 0 then "A" else "B")
              30000 "d1" 0 0 100 (GeoState.mk [] [] [])).1)).1).geo
          (geoKeyForCell "B")).getD [])).map SEntry.driverId) = ["d1"] := by
  decide

/-- C6 (amended): after a position update in cell C1 followed by one in a
different cell C2, the driver:cell pointer points at C2 and the driver is a
member of C2's geo key, but the driver's old entry is still a member of
C1's geo key — the update adds to the new cell without removing from the
old one (removal is left to the external cleanup). -/
theorem updateLocation_keeps_old_cell
    (latLngToCell : ℚ → ℚ → String) (ttl : Nat) (d : String)
    (lat1 lon1 lat2 lon2 : ℚ) (t1 t2 : Nat) (s : GeoState)
    (h : latLngToCell lat1 lon1 ≠ latLngToCell lat2 lon2) :
    getAssoc ((updateLocation latLngToCell ttl d lat2 lon2 t2
        ((updateLocation latLngToCell ttl d lat1 lon1 t1 s).1)).1).driverCell
        d = some (latLngToCell lat2 lon2) ∧
    (d, Loc.mk lat2 lon2) ∈
      ((getAssoc ((updateLocation latLngToCell ttl d lat2 lon2 t2
          ((updateLocation latLngToCell ttl d lat1 lon1 t1 s).1)).1).geo
        (geoKeyForCell (latLngToCell lat2 lon2))).getD []) ∧
    (d, Loc.mk lat1 lon1) ∈
      ((getAssoc ((updateLocation latLngToCell ttl d lat2 lon2 t2
          ((updateLocation latLngToCell ttl d lat1 lon1 t1 s).1)).1).geo
        (geoKeyForCell (latLngToCell lat1 lon1))).getD []) := by
  have hk : geoKeyForCell (latLngToCell lat1 lon1) ≠
      geoKeyForCell (latLngToCell lat2 lon2) :=
    fun e => h (geoKeyForCell_inj e)
  refine ⟨?_, ?_, ?_⟩
  · simp [updateLocation, getAssoc, setAssoc]
  · simp [updateLocation, getAssoc, setAssoc]
  · simp [updateLocation, getAssoc, setAssoc, hk, Ne.symm hk]

/-- Witness for updateLocation_keeps_old_cell: a two-cell discretization,
driver d1 moving from cell A to cell B. -/
theorem updateLocation_keeps_old_cell_witness :
    (("A" : String) ≠ "B") ∧
    getAssoc ((updateLocation (fun la _ => if la = 0 then "A" else "B")
        30000 "d1" 2 0 200
        ((updateLocation (fun la _ => if la = 0 then "A" else "B")
          30000 "d1" 0 0 100 (GeoState.mk [] [] [])).1)).1).driverCell
        "d1" = some "B" ∧
    ("d1", Loc.mk 2 0) ∈
      ((getAssoc ((updateLocation (fun la _ => if la = 0 then "A" else "B")
          30000 "d1" 2 0 200
          ((updateLocation (fun la _ => if la = 0 then "A" else "B")
            30000 "d1" 0 0 100 (GeoState.mk [] [] [])).1)).1).geo
        (geoKeyForCell "B")).getD []) ∧
    ("d1", Loc.mk 0 0) ∈
      ((getAssoc ((updateLocation (fun la _ => if la = 0 then "A" else "B")
          30000 "d1" 2 0 200
          ((updateLocation (fun la _ => if la = 0 then "A" else "B")
            30000 "d1" 0 0 100 (GeoState.mk [] [] [])).1)).1).geo
        (geoKeyForCell "A")).getD []) :=
  ⟨by decide,
   updateLocation_keeps_old_cell (fun la _ => if la = 0 then "A" else "B")
     30000 "d1" 0 0 2 0 100 200 (GeoState.mk [] [] []) (by decide)⟩

/-- C7 counterexample: driver d1 sits in cell A's geo key while its
driver:lastSeen key expired at t=130000 (so at any later query instant its
last update is far older than the freshness window, and only the external
cleanup would remove the geo member). searchNearby consults no clock and no
lastSeen data at all, and returns d1 anyway — stale entries are not
filtered at read time in this service. -/
theorem searchNearby_returns_stale_driver :
    getAssoc (GeoState.mk [("geo:drivers:h3:8:A", [("d1", Loc.mk 0 0)])]
        [("d1", "A")] [("d1", 130000)]).lastSeen "d1" = some 130000 ∧
    ((searchNearby (fun _ _ => "A") (fun c _ => [c]) 1 (fun _ _ => 0)
        0 0 10 50
        (GeoState.mk [("geo:drivers:h3:8:A", [("d1", Loc.mk 0 0)])]
          [("d1", "A")] [("d1", 130000)])).map SEntry.driverId) = ["d1"] := by
  decide

/-- Every entry a per-cell GEOSEARCH returns lies within the radius. -/
theorem geoSearchCell_dist_le (dist : Loc → Loc → ℚ) (q : Loc)
    (radius : ℚ) (count : Nat) (members : List (String × Loc)) :
    ∀ e ∈ geoSearchCell dist q radius count members,
      e.distance ≤ radius := by
  intro e he
  unfold geoSearchCell at he
  have h1 := List.mem_of_mem_take he
  rw [List.mem_insertionSort] at h1
  exact of_decide_eq_true (List.mem_filter.mp h1).2

/-- C8: every candidate-search result contains only drivers whose distance
from the query point (as computed by GEOSEARCH) is at most the radius, is
sorted ascending by that distance, and has at most maxResults entries. -/
theorem searchNearby_radius_sorted_limit
    (latLngToCell : ℚ → ℚ → String) (gridDisk : String → Nat → List String)
    (edgeLengthMeters : ℚ) (dist : Loc → Loc → ℚ)
    (lat lon radiusMeters : ℚ) (maxResults : Nat) (s : GeoState) :
    (∀ e ∈ searchNearby latLngToCell gridDisk edgeLengthMeters dist lat lon
        radiusMeters maxResults s, e.distance ≤ radiusMeters) ∧
    (searchNearby latLngToCell gridDisk edgeLengthMeters dist lat lon
        radiusMeters maxResults s).Pairwise
      (fun a b => a.distance ≤ b.distance) ∧
    (searchNearby latLngToCell gridDisk edgeLengthMeters dist lat lon
        radiusMeters maxResults s).length ≤ maxResults := by
  refine ⟨?_, ?_, ?_⟩
  · intro e he
    simp only [searchNearby] at he
    have h1 := List.mem_of_mem_take he
    have h2 := (dedupByKey_sublist SEntry.driverId _ _).subset h1
    rw [List.mem_insertionSort, List.mem_flatMap] at h2
    obtain ⟨c, _, hcell⟩ := h2
    exact geoSearchCell_dist_le dist _ radiusMeters maxResults _ e hcell
  · simp only [searchNearby]
    have hs := List.sorted_insertionSort
      (fun a b : SEntry => a.distance ≤ b.distance)
      (List.flatMap
        (gridDisk (latLngToCell lat lon)
          (⌈radiusMeters / edgeLengthMeters⌉).toNat)
        (fun c =>
          geoSearchCell dist (Loc.mk lat lon) radiusMeters maxResults
            ((getAssoc s.geo (geoKeyForCell c)).getD [])))
    exact (hs.sublist (dedupByKey_sublist SEntry.driverId _ _)).sublist
      (List.take_sublist _ _)
  · simp only [searchNearby]
    exact List.length_take_le _ _

/-- C9: the candidate-search result never contains two entries with the
same driver id, even when a driver shows up in several searched cells. -/
theorem searchNearby_nodup
    (latLngToCell : ℚ → ℚ → String) (gridDisk : String → Nat → List String)
    (edgeLengthMeters : ℚ) (dist : Loc → Loc → ℚ)
    (lat lon radiusMeters : ℚ) (maxResults : Nat) (s : GeoState) :
    ((searchNearby latLngToCell gridDisk edgeLengthMeters dist lat lon
        radiusMeters maxResults s).map SEntry.driverId).Nodup := by
  simp only [searchNearby]
  have hnd := (dedupByKey_nodup SEntry.driverId
    (List.insertionSort (fun a b => a.distance ≤ b.distance)
      (List.flatMap
        (gridDisk (latLngToCell lat lon)
          (⌈radiusMeters / edgeLengthMeters⌉).toNat)
        (fun c =>
          geoSearchCell dist (Loc.mk lat lon) radiusMeters maxResults
            ((getAssoc s.geo (geoKeyForCell c)).getD [])))) []).1
  exact hnd.sublist ((List.take_sublist _ _).map SEntry.driverId)

end DriverGeo

namespace Matching

/-- Redis key for one S2 cell and car type (the braces around the cell are
the cluster hash-tag of the source key layout). -/
def cellKey (cell carType : String) : String :=
  "geo:cell:\x7b" ++ cell ++ "\x7d:" ++ carType

/-- Redis state of the S2 matching service: one sorted set per cell key,
member driver id with its score, which updateDriverLocation sets to the
update instant (Date.now()). -/
structure MState where
  zsets : List (String × List (String × Nat))
deriving DecidableEq, Repr

/-- updateDriverLocation: ZADD the driver into the cell key of its S2 token
(the S2 library is a parameter) with score now; the 60 s key TTL is not
tracked (no claim here depends on whole-key decay). -/
def updateDriverLocation (getS2CellId : ℚ → ℚ → String) (driverId : String)
    (lat lng : ℚ) (carType : String) (now : Nat) (s : MState) : MState :=
  let key := cellKey (getS2CellId lat lng) carType
  MState.mk (DriverGeo.setAssoc s.zsets key
    (DriverGeo.setAssoc ((DriverGeo.getAssoc s.zsets key).getD [])
      driverId now))

/-- Redis ZRANGEBYSCORE over one sorted set: members whose score lies in
the closed interval, in score order. -/
def zrangebyscore (members : List (String × Nat)) (lo hi : Nat) :
    List String :=
  (List.insertionSort (fun a b => a.2 ≤ b.2)
    (members.filter (fun p => decide (lo ≤ p.2 ∧ p.2 ≤ hi)))).map Prod.fst

/-- findNearbyDrivers: gather the center cell and its neighbors (S2 calls
are parameters), ZRANGEBYSCORE each cell key over the last 60000 ms, flatten
and deduplicate the driver ids (the JS Set keeps first occurrences). -/
def findNearbyDrivers (getS2CellId : ℚ → ℚ → String)
    (getNeighborCellIds : String → List String) (lat lng : ℚ)
    (carType : String) (now : Nat) (s : MState) : List String :=
  let centerCell := getS2CellId lat lng
  let cells := centerCell :: getNeighborCellIds centerCell
  let cutoff := now - 60000
  let drivers := cells.flatMap (fun c =>
    zrangebyscore ((DriverGeo.getAssoc s.zsets (cellKey c carType)).getD [])
      cutoff now)
  DriverGeo.dedupByKey (fun d => d) drivers []

/-- C7 (amended): the S2 matching variant does filter at read time — every
driver findNearbyDrivers returns has, in one of the searched cells, a score
(its lastSeen update instant) inside the 60 s freshness window ending at
now, so a driver whose entries are all older than the window is never
returned even before any cleanup runs; the H3 variant's searchNearby does
no such filtering (see the stale-driver counterexample). -/
theorem findNearbyDrivers_only_fresh (getS2CellId : ℚ → ℚ → String)
    (getNeighborCellIds : String → List String) (lat lng : ℚ)
    (carType : String) (now : Nat) (s : MState) (d : String)
    (hd : d ∈ findNearbyDrivers getS2CellId getNeighborCellIds lat lng
      carType now s) :
    ∃ c ∈ getS2CellId lat lng ::
        getNeighborCellIds (getS2CellId lat lng),
      ∃ score : Nat,
        (d, score) ∈
          ((DriverGeo.getAssoc s.zsets (cellKey c carType)).getD []) ∧
        now - 60000 ≤ score ∧ score ≤ now := by
  simp only [findNearbyDrivers] at hd
  have h1 := (DriverGeo.dedupByKey_sublist (fun d => d) _ _).subset hd
  rw [List.mem_flatMap] at h1
  obtain ⟨c, hc, hmem⟩ := h1
  refine ⟨c, hc, ?_⟩
  unfold zrangebyscore at hmem
  rw [List.mem_map] at hmem
  obtain ⟨p, hp, hpd⟩ := hmem
  rw [List.mem_insertionSort] at hp
  have hcond := of_decide_eq_true (List.mem_filter.mp hp).2
  exact ⟨p.2, by rw [← hpd]; exact (List.mem_filter.mp hp).1,
         hcond.1, hcond.2⟩

/-- Witness for findNearbyDrivers_only_fresh: one cell, driver d1 updated
at t=50, queried at now=60: d1 is returned and its score 50 is inside the
window. -/
theorem findNearbyDrivers_only_fresh_witness :
    ("d1" ∈ findNearbyDrivers (fun _ _ => "A") (fun _ => []) 0 0 "sedan" 60
      (MState.mk [(cellKey "A" "sedan", [("d1", 50)])])) ∧
    ∃ c ∈ (fun (_ : ℚ) (_ : ℚ) => "A") 0 0 ::
        (fun (_ : String) => ([] : List String))
          ((fun (_ : ℚ) (_ : ℚ) => "A") 0 0),
      ∃ score : Nat,
        (("d1", score) ∈
          ((DriverGeo.getAssoc
              (MState.mk [(cellKey "A" "sedan", [("d1", 50)])]).zsets
              (cellKey c "sedan")).getD [])) ∧
        60 - 60000 ≤ score ∧ score ≤ 60 :=
  ⟨by decide,
   findNearbyDrivers_only_fresh (fun _ _ => "A") (fun _ => []) 0 0 "sedan"
     60 (MState.mk [(cellKey "A" "sedan", [("d1", 50)])]) "d1" (by decide)⟩

end Matching
